import Mathlib

/-!
Shallow embedding of the aioneo4j client library (src/aioneo4j/client.py and
src/aioneo4j/transport.py): a minimal asynchronous HTTP client for a Neo4j
database.  Pure request-building, status checking, timeout resolution and
credential normalisation are translated into executable Lean functions; the
network exchange itself is abstracted as an outcome parameter.
-/

/-- JSON-like Python values: the payloads that flow through the client
(`json.loads` results, request dictionaries, statements).  Mappings are
association lists in insertion order, as Python dicts preserve it. -/
inductive JVal where
  | null
  | bool (b : Bool)
  | num (n : Int)
  | str (s : String)
  | arr (elems : List JVal)
  | obj (fields : List (String × JVal))
deriving Repr

/-- Python truthiness of a decoded JSON value: `None`, `False`, `0`, `""`,
`[]` and `{}` are falsy, everything else is truthy. -/
def JVal.truthy : JVal → Bool
  | .null => false
  | .bool b => b
  | .num n => n != 0
  | .str s => s != ""
  | .arr elems => !elems.isEmpty
  | .obj fields => !fields.isEmpty

/-- Python `isinstance(x, collections.Mapping)` on a decoded value. -/
def JVal.isMapping : JVal → Bool
  | .obj _ => true
  | _ => false

/-- Python `dict.get(k)` (also used for `k in dict`): first binding of the key
in the association list; `none` both when the key is absent and when the value
is not a mapping at all. -/
def JVal.get (k : String) : JVal → Option JVal
  | .obj fields => lookup k fields
  | _ => none
where
  lookup (k : String) : List (String × JVal) → Option JVal
    | [] => none
    | (k', v) :: rest => if k' = k then some v else lookup k rest

/-- Built-in Python exceptions raised by the client-side code paths before any
network call: `assert not params` (AssertionError), `raise ValueError`, and
call-binding failures (TypeError). -/
inductive PyError where
  | assertionError
  | valueError
  | typeError
deriving Repr, DecidableEq

/-- Diagnostic payload carried by a ClientError: either the decoded JSON error
body, or the raw response text. -/
inductive ErrPayload where
  | json (v : JVal)
  | text (s : String)
deriving Repr

namespace Transport

/-- Modelled from the spec: the `errors` module of this repository is imported
by `transport.py` but is not under src/.  Per the spec's error-handling
design, the four error kinds are distinct, none is retried or suppressed, and
`ClientError` (raised on a non-success HTTP status, or on an embedded
application-level error list) surfaces directly to the caller — it is not one
of the underlying HTTP-client failures that get wrapped as `TransportError`.
`ClientError` carries a status code when applicable, plus the diagnostic
payload. -/
inductive Err where
  | serializationError
  | timeoutError
  | transportError
  | clientError (status : Option Nat) (payload : ErrPayload)
deriving Repr

/-- Outcome of the underlying `aiohttp` exchange awaited by
`perform_request`: a response with a status and body text, expiry of the
resolved deadline (`asyncio.TimeoutError`), or an HTTP-client failure
(`aiohttp.ClientError`, e.g. connection refused). -/
inductive ExchangeOutcome where
  | response (status : Nat) (text : String)
  | timedOut
  | clientFailure
deriving Repr

/-- The three-state per-call / instance timeout value: the `...` (Ellipsis)
unset sentinel, `None` (wait indefinitely), or an explicit duration. -/
inductive TimeoutVal where
  | unset
  | noTimeout
  | value (seconds : Int)
deriving Repr, DecidableEq

/-- Timeout resolution in `Transport.perform_request` (transport.py):
`_request_timeout = request_timeout`; if `request_timeout is ...` fall back to
`self.request_timeout`; if the result `is ...` use `None`. -/
def resolve_timeout (instance_default percall : TimeoutVal) : TimeoutVal :=
  let r := if percall = TimeoutVal.unset then instance_default else percall
  if r = TimeoutVal.unset then TimeoutVal.noTimeout else r

/-- Response handling of `Transport._perform_request` (transport.py lines
84-112), given the response status and body text and the instance decoder
(`none` models the decoder raising one of `decoder_errors`).  If the status
is outside `200 <= status <= 300`, a ClientError carrying the status and
`extra or text` is raised, where `extra` is the decoded body when decoding
succeeded and `None` otherwise; `extra or text` yields the raw text whenever
`extra` is falsy.  Otherwise the status and text are returned. -/
def _perform_request (dec : String → Option JVal) (status : Nat) (text : String) :
    Except Err (Nat × String) :=
  if ¬ (200 ≤ status ∧ status ≤ 300) then
    let extra : Option JVal := dec text
    let payload : ErrPayload :=
      match extra with
      | some v => if v.truthy then ErrPayload.json v else ErrPayload.text text
      | none => ErrPayload.text text
    Except.error (Err.clientError (some status) payload)
  else
    Except.ok (status, text)

/-- The `perform_request` pipeline of transport.py after the timeout has been
resolved: await the exchange (timeout expiry becomes `errors.TimeoutError`,
an HTTP-client failure becomes `errors.TransportError`), run the status check
of `_perform_request`, then decode a non-empty body (`errors.SerializationError`
on decoder failure; an empty body is returned undecoded, modelled as `none`),
and raise `errors.ClientError(data['errors'])` when the decoded body is a
mapping whose `errors` entry is truthy. -/
def perform_request (dec : String → Option JVal) (outcome : ExchangeOutcome) :
    Except Err (Nat × Option JVal) :=
  match outcome with
  | ExchangeOutcome.timedOut => Except.error Err.timeoutError
  | ExchangeOutcome.clientFailure => Except.error Err.transportError
  | ExchangeOutcome.response status text =>
    match _perform_request dec status text with
    | Except.error e => Except.error e
    | Except.ok (st, t) =>
      if t = "" then
        Except.ok (st, none)
      else
        match dec t with
        | none => Except.error Err.serializationError
        | some v =>
          match v.get "errors" with
          | some e => if e.truthy then Except.error (Err.clientError none (ErrPayload.json e))
                      else Except.ok (st, some v)
          | none => Except.ok (st, some v)

/-- Internal authentication representation: `aiohttp.BasicAuth(login, password)`.
Python strings are modelled as lists of characters so that `str.split` can be
reasoned about. -/
structure BasicAuth where
  login : List Char
  password : List Char
deriving Repr, DecidableEq

/-- The value passed to the auth setter: `None`, a single `"user:pass"`
string, or a two-element (username, password) sequence. -/
inductive AuthArg where
  | null
  | str (s : List Char)
  | pair (username password : List Char)
deriving Repr, DecidableEq

/-- Python `s.split(c)` for a one-character separator: splits at every
occurrence, keeping empty pieces; `"".split(c) = [""]`. -/
def split_on_char (c : Char) : List Char → List (List Char)
  | [] => [[]]
  | x :: xs =>
    if x = c then [] :: split_on_char c xs
    else
      match split_on_char c xs with
      | [] => [[x]]
      | y :: ys => (x :: y) :: ys

/-- The auth setter `Transport.set_auth` (transport.py lines 57-67): a string
is split on a colon into username and password (unpacking a list whose length
is not two raises ValueError), a sequence is unpacked directly, and the result
is normalised into a `BasicAuth`; `None` clears the credentials. -/
def set_auth (auth : AuthArg) : Except PyError (Option BasicAuth) :=
  match auth with
  | AuthArg.null => Except.ok none
  | AuthArg.str s =>
    match split_on_char ':' s with
    | [username, password] => Except.ok (some ⟨username, password⟩)
    | _ => Except.error PyError.valueError
  | AuthArg.pair username password => Except.ok (some ⟨username, password⟩)

end Transport

/-- A parameter of a Python function signature: its name and whether it has a
default value. -/
structure Param where
  name : String
  has_default : Bool
deriving Repr, DecidableEq

namespace Client

/-- The parameters of `Transport.__init__` (transport.py line 33), in order:
`url`, `auth` and `database` have no default; `loop` is keyword-only with no
default; the rest have defaults. -/
def transport_init_params : List Param :=
  [⟨"url", false⟩, ⟨"auth", false⟩, ⟨"database", false⟩,
   ⟨"encoder", true⟩, ⟨"decoder", true⟩,
   ⟨"encoder_errors", true⟩, ⟨"decoder_errors", true⟩,
   ⟨"request_timeout", true⟩, ⟨"session", true⟩,
   ⟨"maxsize", true⟩, ⟨"use_dns_cache", true⟩, ⟨"loop", false⟩]

/-- The keyword arguments `Client.__init__` (client.py lines 26-38) passes to
the transport class: `transport(url=url, auth=auth,
request_timeout=request_timeout, loop=self.loop)`. -/
def init_transport_kwargs : List String :=
  ["url", "auth", "request_timeout", "loop"]

/-- Python call binding for a call made with keyword arguments only: the call
raises TypeError unless every keyword names a parameter and every parameter
without a default receives an argument. -/
def bind_keyword_call (params : List Param) (kwargs : List String) : Except PyError Unit :=
  if kwargs.all (fun k => params.any fun p => p.name == k) &&
     params.all (fun p => p.has_default || kwargs.contains p.name)
  then Except.ok () else Except.error PyError.typeError

/-- Request-body construction of `Client.cypher` (client.py lines 72-86): a
mapping query is used verbatim after `assert not params`; otherwise the body
is `{'query': query}`, with `params` added under the `'params'` key when the
keyword arguments are non-empty. -/
def cypher_request (query : JVal) (params : List (String × JVal)) : Except PyError JVal :=
  if query.isMapping then
    if params.isEmpty then Except.ok query
    else Except.error PyError.assertionError
  else
    if params.isEmpty then Except.ok (JVal.obj [("query", query)])
    else Except.ok (JVal.obj [("query", query), ("params", JVal.obj params)])

/-- Per-statement step of the `Client.transaction_commit` loop (client.py
lines 98-104): a non-mapping statement is wrapped as `{'statement': s}`; a
mapping statement must already contain a `statement` key, else ValueError. -/
def wrap_statement (s : JVal) : Except PyError JVal :=
  if s.isMapping then
    if (s.get "statement").isSome then Except.ok s
    else Except.error PyError.valueError
  else Except.ok (JVal.obj [("statement", s)])

/-- The `for statement in statements` loop of `Client.transaction_commit`:
wraps each statement in order, stopping at the first ValueError. -/
def wrap_statements : List JVal → Except PyError (List JVal)
  | [] => Except.ok []
  | s :: rest =>
    match wrap_statement s with
    | Except.error e => Except.error e
    | Except.ok w =>
      match wrap_statements rest with
      | Except.error e => Except.error e
      | Except.ok ws => Except.ok (w :: ws)

/-- The condition of client.py line 95: exactly one positional argument which
is a mapping containing a `statements` key. -/
def tc_verbatim_case (statements : List JVal) : Bool :=
  match statements with
  | [s] => s.isMapping && (s.get "statements").isSome
  | _ => false

/-- Request-body construction of `Client.transaction_commit` (client.py lines
92-104): one mapping argument already containing `statements` is sent
unchanged; otherwise the statements are wrapped in order into
`{'statements': [...]}`. -/
def transaction_commit_request (statements : List JVal) : Except PyError JVal :=
  match statements with
  | [s] =>
    if s.isMapping && (s.get "statements").isSome then Except.ok s
    else
      match wrap_statements [s] with
      | Except.error e => Except.error e
      | Except.ok ws => Except.ok (JVal.obj [("statements", JVal.arr ws)])
  | stmts =>
    match wrap_statements stmts with
    | Except.error e => Except.error e
    | Except.ok ws => Except.ok (JVal.obj [("statements", JVal.arr ws)])

/-- Credential effect of `Client.user_password` (client.py lines 130-142):
the POST outcome is whatever `perform_request` produced; an exception
propagates before the `if set_auth` line runs, so the stored credentials
change — via `self.auth = (username, password)`, which routes through the
transport's auth setter — only when the request succeeded and `set_auth` is
true.  Returns the credential state after the call together with the call's
outcome. -/
def user_password (auth0 : Option Transport.BasicAuth) (username password : List Char)
    (set_auth : Bool) (outcome : Except Transport.Err JVal) :
    Option Transport.BasicAuth × Except Transport.Err JVal :=
  match outcome with
  | Except.error e => (auth0, Except.error e)
  | Except.ok data =>
    let newAuth :=
      if set_auth then
        match Transport.set_auth (Transport.AuthArg.pair username password) with
        | Except.ok a => a
        | Except.error _ => auth0
      else auth0
    (newAuth, Except.ok data)

end Client

/-- A decoder that succeeds on the body "0" with the falsy JSON value 0 and
raises decoder errors elsewhere (used for concrete instantiations). -/
def dec_falsy : String → Option JVal :=
  fun s => if s = "0" then some (JVal.num 0) else none

/-- A decoder that succeeds on the body "oops" with a truthy mapping and
raises decoder errors elsewhere (used for concrete instantiations). -/
def dec_diag : String → Option JVal :=
  fun s => if s = "oops" then some (JVal.obj [("message", JVal.str "x")]) else none

/-- A decoder that succeeds on the body "errbody" with a mapping carrying a
non-empty `errors` entry and raises decoder errors elsewhere. -/
def dec_errs : String → Option JVal :=
  fun s =>
    if s = "errbody" then some (JVal.obj [("errors", JVal.arr [JVal.str "boom"])]) else none

/-- C1 (amended): in `_perform_request`, a ClientError carrying the status
code and a diagnostic payload is raised exactly when the status lies outside
the closed range 200..300 — the code's check is `200 <= status <= 300`, so
200 through 300 inclusive are success and 301 is the first failure above the
band. -/
theorem C1_success_band (dec : String → Option JVal) (status : Nat) (text : String) :
    (∃ p, Transport._perform_request dec status text =
        Except.error (Transport.Err.clientError (some status) p)) ↔
      ¬ (200 ≤ status ∧ status ≤ 300) := by
  unfold Transport._perform_request
  by_cases h : 200 ≤ status ∧ status ≤ 300
  · simp [h]
  · simp [h]

/-- C1 as stated is false at status 300: 300 lies outside the half-open range
claimed to be the success band (200 ≤ s < 300), yet `_perform_request`
returns success rather than raising a ClientError. -/
theorem C1_counterexample :
    ¬ (200 ≤ 300 ∧ 300 < 300) ∧
    Transport._perform_request (fun _ => none) 300 "body" = Except.ok (300, "body") :=
  ⟨by decide, rfl⟩

/-- C2: `Client.__init__` invokes the default transport class with the
keyword arguments url, auth, request_timeout and loop, leaving
`Transport.__init__`'s required parameter `database` without an argument, so
construction raises TypeError and no operation of the Client facade is
reachable with the default Transport. -/
theorem C2_default_transport_type_error :
    Client.bind_keyword_call Client.transport_init_params Client.init_transport_kwargs =
      Except.error PyError.typeError ∧
    (∃ q ∈ Client.transport_init_params, q.has_default = false ∧
        q.name = "database" ∧ Client.init_transport_kwargs.contains q.name = false) := by
  refine ⟨rfl, ⟨⟨"database", false⟩, by decide, rfl, rfl, by decide⟩⟩

/-- C7 (amended): on a non-success status, the ClientError carries the
decoded JSON diagnostic payload when decoding succeeds and the decoded value
is truthy; the raw text is used when decoding fails or when the decoded value
is falsy (the code computes `extra or text`). -/
theorem C7_error_payload (dec : String → Option JVal) (status : Nat) (text : String)
    (v : JVal) (h : ¬ (200 ≤ status ∧ status ≤ 300)) :
    (dec text = some v → v.truthy = true →
      Transport._perform_request dec status text =
        Except.error (Transport.Err.clientError (some status) (ErrPayload.json v))) ∧
    (dec text = some v → v.truthy = false →
      Transport._perform_request dec status text =
        Except.error (Transport.Err.clientError (some status) (ErrPayload.text text))) ∧
    (dec text = none →
      Transport._perform_request dec status text =
        Except.error (Transport.Err.clientError (some status) (ErrPayload.text text))) := by
  refine ⟨fun hd ht => ?_, fun hd ht => ?_, fun hd => ?_⟩
  · unfold Transport._perform_request; simp [h, hd, ht]
  · unfold Transport._perform_request; simp [h, hd, ht]
  · unfold Transport._perform_request; simp [h, hd]

/-- C7 witness: at status 404 with body "oops", the decoder yields a truthy
mapping and the ClientError carries the decoded JSON payload. -/
theorem C7_witness :
    Transport._perform_request dec_diag 404 "oops" =
      Except.error (Transport.Err.clientError (some 404)
        (ErrPayload.json (JVal.obj [("message", JVal.str "x")]))) :=
  (C7_error_payload dec_diag 404 "oops" (JVal.obj [("message", JVal.str "x")])
      (by decide)).1 rfl rfl

/-- C7 as stated is false at status 404 with body "0": decoding succeeds,
yielding the JSON number 0, yet the raised ClientError carries the raw text
"0", because `extra or text` discards a falsy decoded value. -/
theorem C7_counterexample :
    dec_falsy "0" = some (JVal.num 0) ∧
    Transport._perform_request dec_falsy 404 "0" =
      Except.error (Transport.Err.clientError (some 404) (ErrPayload.text "0")) :=
  ⟨rfl, rfl⟩

/-- C4: timeout resolution is three-state — an unset per-call timeout falls
back to the instance default (itself unset meaning wait indefinitely); an
explicitly passed value, including an explicit no-timeout, is used as given
and the instance default is not consulted; and expiry of the resolved
deadline fails with `errors.TimeoutError`, a distinct error from the other
transport error kinds. -/
theorem C4_timeout_resolution (d q : Transport.TimeoutVal) (dec : String → Option JVal) :
    (Transport.resolve_timeout d Transport.TimeoutVal.unset =
       if d = Transport.TimeoutVal.unset then Transport.TimeoutVal.noTimeout else d) ∧
    (q ≠ Transport.TimeoutVal.unset → Transport.resolve_timeout d q = q) ∧
    (Transport.perform_request dec Transport.ExchangeOutcome.timedOut =
       Except.error Transport.Err.timeoutError) ∧
    (Transport.Err.timeoutError ≠ Transport.Err.transportError ∧
     Transport.Err.timeoutError ≠ Transport.Err.serializationError ∧
     ∀ s pl, Transport.Err.timeoutError ≠ Transport.Err.clientError s pl) := by
  refine ⟨?_, fun hq => ?_, rfl, by simp, by simp, fun s pl => by simp⟩
  · simp [Transport.resolve_timeout]
  · simp [Transport.resolve_timeout, hq]

/-- C4 witness: an explicit no-timeout per-call value overrides a finite
instance default. -/
theorem C4_witness :
    Transport.resolve_timeout (Transport.TimeoutVal.value 5) Transport.TimeoutVal.noTimeout =
      Transport.TimeoutVal.noTimeout :=
  (C4_timeout_resolution (Transport.TimeoutVal.value 5) Transport.TimeoutVal.noTimeout
      (fun _ => none)).2.1 (by decide)

/-- C5: for a non-mapping query with no extra keyword params, the body handed
to the transport is exactly the single-key mapping with the query; with extra
params, exactly the query plus the params under the `params` key. -/
theorem C5_cypher_body (query : JVal) (params : List (String × JVal))
    (h : query.isMapping = false) :
    (params.isEmpty = true →
       Client.cypher_request query params = Except.ok (JVal.obj [("query", query)])) ∧
    (params.isEmpty = false →
       Client.cypher_request query params =
         Except.ok (JVal.obj [("query", query), ("params", JVal.obj params)])) := by
  refine ⟨fun hp => ?_, fun hp => ?_⟩ <;> simp [Client.cypher_request, h, hp]

/-- C5 witness: concrete string queries with and without extra params. -/
theorem C5_witness :
    Client.cypher_request (JVal.str "RETURN 1") [] =
        Except.ok (JVal.obj [("query", JVal.str "RETURN 1")]) ∧
    Client.cypher_request (JVal.str "RETURN x") [("x", JVal.num 1)] =
        Except.ok (JVal.obj [("query", JVal.str "RETURN x"),
          ("params", JVal.obj [("x", JVal.num 1)])]) :=
  ⟨(C5_cypher_body (JVal.str "RETURN 1") [] rfl).1 rfl,
   (C5_cypher_body (JVal.str "RETURN x") [("x", JVal.num 1)] rfl).2 rfl⟩

/-- C8: a mapping query together with at least one extra keyword param fails
with AssertionError before any request body is produced; a mapping query with
no extra params is used verbatim as the request body. -/
theorem C8_cypher_mapping (fields : List (String × JVal)) (params : List (String × JVal))
    (hp : params.isEmpty = false) :
    Client.cypher_request (JVal.obj fields) params = Except.error PyError.assertionError ∧
    Client.cypher_request (JVal.obj fields) [] = Except.ok (JVal.obj fields) := by
  constructor <;> simp [Client.cypher_request, JVal.isMapping, hp]

/-- C8 witness: a concrete mapping query with and without an extra param. -/
theorem C8_witness :
    Client.cypher_request (JVal.obj [("query", JVal.str "RETURN 1")]) [("x", JVal.num 1)] =
        Except.error PyError.assertionError ∧
    Client.cypher_request (JVal.obj [("query", JVal.str "RETURN 1")]) [] =
        Except.ok (JVal.obj [("query", JVal.str "RETURN 1")]) :=
  C8_cypher_mapping [("query", JVal.str "RETURN 1")] [("x", JVal.num 1)] rfl

/-- C9: user_password leaves the stored credentials unchanged when the POST
fails with any error, and otherwise sets them to the new (username, password)
pair exactly when set_auth is true. -/
theorem C9_user_password_auth (auth0 : Option Transport.BasicAuth)
    (username password : List Char) (sa : Bool) (outcome : Except Transport.Err JVal) :
    (∀ e, outcome = Except.error e →
       (Client.user_password auth0 username password sa outcome).1 = auth0) ∧
    (∀ d, outcome = Except.ok d →
       (Client.user_password auth0 username password sa outcome).1 =
         if sa then some ⟨username, password⟩ else auth0) := by
  constructor
  · rintro e rfl; rfl
  · rintro d rfl
    by_cases hsa : sa <;> simp [Client.user_password, Transport.set_auth, hsa]

/-- C9 witness: a successful POST with set_auth true installs the new pair,
and a failed POST leaves the credentials alone. -/
theorem C9_witness :
    (Client.user_password none ("neo4j".toList) ("pw".toList) true
        (Except.ok JVal.null)).1 = some ⟨"neo4j".toList, "pw".toList⟩ ∧
    (Client.user_password none ("neo4j".toList) ("pw".toList) true
        (Except.error Transport.Err.timeoutError)).1 = none :=
  ⟨(C9_user_password_auth none ("neo4j".toList) ("pw".toList) true
      (Except.ok JVal.null)).2 JVal.null rfl,
   (C9_user_password_auth none ("neo4j".toList) ("pw".toList) true
      (Except.error Transport.Err.timeoutError)).1 Transport.Err.timeoutError rfl⟩

/-- Splitting a list that does not contain the separator yields the list
itself as the only piece. -/
theorem Transport.split_on_char_not_mem (c : Char) (l : List Char) (h : c ∉ l) :
    Transport.split_on_char c l = [l] := by
  induction l with
  | nil => rfl
  | cons x xs ih =>
    have hx : x ≠ c := fun hxc => h (hxc ▸ List.mem_cons_self x xs)
    have hxs : c ∉ xs := fun hm => h (List.mem_cons_of_mem x hm)
    simp [Transport.split_on_char, hx, ih hxs]

/-- Splitting at the first separator occurrence peels off the prefix before
it. -/
theorem Transport.split_on_char_append (c : Char) (u q : List Char) (hu : c ∉ u) :
    Transport.split_on_char c (u ++ c :: q) = u :: Transport.split_on_char c q := by
  induction u with
  | nil => simp [Transport.split_on_char]
  | cons x xs ih =>
    have hx : x ≠ c := fun hxc => hu (hxc ▸ List.mem_cons_self x xs)
    have hxs : c ∉ xs := fun hm => hu (List.mem_cons_of_mem x hm)
    simp [Transport.split_on_char, hx, ih hxs]

/-- C10: for a username and password free of colons, setting auth via the
single string "u:p" and via the (u, p) pair normalise to equal internal
credential state, and setting auth to None clears the credentials. -/
theorem C10_auth_normalisation (u q : List Char) (hu : ':' ∉ u) (hq : ':' ∉ q) :
    Transport.set_auth (Transport.AuthArg.str (u ++ ':' :: q)) =
      Transport.set_auth (Transport.AuthArg.pair u q) ∧
    Transport.set_auth Transport.AuthArg.null = Except.ok none := by
  refine ⟨?_, rfl⟩
  simp [Transport.set_auth, Transport.split_on_char_append ':' u q hu,
        Transport.split_on_char_not_mem ':' q hq]

/-- C10 witness: the concrete credentials neo4j / pass. -/
theorem C10_witness :
    Transport.set_auth (Transport.AuthArg.str ("neo4j".toList ++ ':' :: "pass".toList)) =
      Transport.set_auth (Transport.AuthArg.pair ("neo4j".toList) ("pass".toList)) ∧
    Transport.set_auth Transport.AuthArg.null = Except.ok none :=
  C10_auth_normalisation ("neo4j".toList) ("pass".toList) (by decide) (by decide)

/-- C3: on a successful-status response whose non-empty body decodes to a
mapping, perform_request raises a ClientError carrying the `errors` value
exactly when that entry is present and non-empty; an absent or empty
(falsy) `errors` entry does not raise, and the decoded mapping is returned. -/
theorem C3_embedded_errors (dec : String → Option JVal) (status : Nat) (text : String)
    (fields : List (String × JVal))
    (hst : 200 ≤ status ∧ status ≤ 300) (hne : text ≠ "")
    (hdec : dec text = some (JVal.obj fields)) :
    (∀ e, (JVal.obj fields).get "errors" = some e → e.truthy = true →
       Transport.perform_request dec (Transport.ExchangeOutcome.response status text) =
         Except.error (Transport.Err.clientError none (ErrPayload.json e))) ∧
    (∀ e, (JVal.obj fields).get "errors" = some e → e.truthy = false →
       Transport.perform_request dec (Transport.ExchangeOutcome.response status text) =
         Except.ok (status, some (JVal.obj fields))) ∧
    ((JVal.obj fields).get "errors" = none →
       Transport.perform_request dec (Transport.ExchangeOutcome.response status text) =
         Except.ok (status, some (JVal.obj fields))) := by
  have hinner : Transport._perform_request dec status text = Except.ok (status, text) := by
    unfold Transport._perform_request
    simp [hst]
  refine ⟨fun e he ht => ?_, fun e he ht => ?_, fun he => ?_⟩
  · simp [Transport.perform_request, hinner, hne, hdec, he, ht]
  · simp [Transport.perform_request, hinner, hne, hdec, he, ht]
  · simp [Transport.perform_request, hinner, hne, hdec, he]

/-- C3 witness: a 200 response whose body decodes to a mapping with a
non-empty errors list raises a ClientError carrying that list. -/
theorem C3_witness :
    Transport.perform_request dec_errs (Transport.ExchangeOutcome.response 200 "errbody") =
      Except.error
        (Transport.Err.clientError none (ErrPayload.json (JVal.arr [JVal.str "boom"]))) :=
  (C3_embedded_errors dec_errs 200 "errbody" [("errors", JVal.arr [JVal.str "boom"])]
      (by decide) (by decide) rfl).1 (JVal.arr [JVal.str "boom"]) rfl rfl

/-- The per-statement step only ever fails with ValueError. -/
theorem Client.wrap_statement_fail (s : JVal) (e : PyError)
    (h : Client.wrap_statement s = Except.error e) : e = PyError.valueError := by
  unfold Client.wrap_statement at h
  split at h
  · split at h
    · cases h
    · cases h; rfl
  · cases h

/-- A statement list containing a mapping without a `statement` key always
fails to wrap, with ValueError. -/
theorem Client.wrap_statements_bad (stmts : List JVal) (gs : JVal)
    (hmem : gs ∈ stmts) (hmap : gs.isMapping = true) (hgs : gs.get "statement" = none) :
    Client.wrap_statements stmts = Except.error PyError.valueError := by
  induction stmts with
  | nil => cases hmem
  | cons x xs ih =>
    unfold Client.wrap_statements
    rcases List.mem_cons.mp hmem with rfl | hmem'
    · have hx : Client.wrap_statement gs = Except.error PyError.valueError := by
        unfold Client.wrap_statement
        simp [hmap, hgs]
      simp [hx]
    · cases hw : Client.wrap_statement x with
      | error e =>
        have he := Client.wrap_statement_fail x e hw
        simp [hw, he]
      | ok w => simp [hw, ih hmem']

/-- Wrapping a list of raw strings wraps each in order. -/
theorem Client.wrap_statements_strings (ss : List String) :
    Client.wrap_statements (ss.map JVal.str) =
      Except.ok (ss.map fun s => JVal.obj [("statement", JVal.str s)]) := by
  induction ss with
  | nil => rfl
  | cons s rest ih =>
    simp [Client.wrap_statements, Client.wrap_statement, JVal.isMapping, ih]

/-- Outside the single-mapping-with-statements case, transaction_commit
assembles the body from the wrapped statements. -/
theorem Client.tc_not_verbatim (stmts : List JVal)
    (h : Client.tc_verbatim_case stmts = false) :
    Client.transaction_commit_request stmts =
      match Client.wrap_statements stmts with
      | Except.error e => Except.error e
      | Except.ok ws => Except.ok (JVal.obj [("statements", JVal.arr ws)]) := by
  match stmts with
  | [] => rfl
  | [s] =>
    have h' : (s.isMapping && (s.get "statements").isSome) = false := h
    unfold Client.transaction_commit_request
    simp [h']
  | a :: b :: rest => rfl

/-- A list of raw strings never triggers the verbatim case. -/
theorem Client.tc_verbatim_strings (ss : List String) :
    Client.tc_verbatim_case (ss.map JVal.str) = false := by
  cases ss with
  | nil => rfl
  | cons a rest =>
    cases rest with
    | nil => rfl
    | cons b r => rfl

/-- C6: a single mapping argument containing a `statements` key is sent as
the body unchanged; string statements are each wrapped as
`{"statement": s}` in order under a `statements` list; and in the
non-verbatim case any mapping statement lacking a `statement` key makes the
call fail with ValueError before any body is assembled. -/
theorem C6_transaction_commit (fields : List (String × JVal)) (ss : List String)
    (stmts : List JVal) (gs : JVal)
    (hkey : ((JVal.obj fields).get "statements").isSome = true)
    (hnv : Client.tc_verbatim_case stmts = false)
    (hmem : gs ∈ stmts) (hmap : gs.isMapping = true) (hgs : gs.get "statement" = none) :
    (Client.transaction_commit_request [JVal.obj fields] = Except.ok (JVal.obj fields)) ∧
    (Client.transaction_commit_request (ss.map JVal.str) =
       Except.ok (JVal.obj [("statements",
         JVal.arr (ss.map fun s => JVal.obj [("statement", JVal.str s)]))])) ∧
    (Client.transaction_commit_request stmts = Except.error PyError.valueError) := by
  refine ⟨?_, ?_, ?_⟩
  · simp [Client.transaction_commit_request, JVal.isMapping, hkey]
  · rw [Client.tc_not_verbatim _ (Client.tc_verbatim_strings ss),
        Client.wrap_statements_strings ss]
  · rw [Client.tc_not_verbatim stmts hnv,
        Client.wrap_statements_bad stmts gs hmem hmap hgs]

/-- C6 witness: a verbatim statements mapping, one raw string statement, and
a mapping statement lacking a statement key. -/
theorem C6_witness :
    Client.transaction_commit_request [JVal.obj [("statements", JVal.arr [])]] =
        Except.ok (JVal.obj [("statements", JVal.arr [])]) ∧
    Client.transaction_commit_request [JVal.str "RETURN 1"] =
        Except.ok (JVal.obj [("statements",
          JVal.arr [JVal.obj [("statement", JVal.str "RETURN 1")]])]) ∧
    Client.transaction_commit_request [JVal.obj [("q", JVal.null)]] =
        Except.error PyError.valueError :=
  C6_transaction_commit [("statements", JVal.arr [])] ["RETURN 1"]
    [JVal.obj [("q", JVal.null)]] (JVal.obj [("q", JVal.null)])
    rfl rfl (List.mem_cons_self _ _) rfl rfl
